import Mathlib

/- Verification of the Edu Tutor AI application (src/app.py): a shallow
embedding of the session orchestrator, credential store, transcript store,
sentiment classifier and response generator, with theorems settling the
specification claims about them. Sentiment scores are modelled as rationals
and timestamps as naturals. -/

namespace EduTutor

/-- Per-session analytics record, from the session-state initialisation in
src/app.py (keys total_interactions, avg_sentiment, topics_discussed,
session_duration, start_time). -/
structure AnalyticsState where
  total_interactions : Nat
  avg_sentiment : ℚ
  topics_discussed : List String
  session_duration : Nat
  start_time : Nat
deriving DecidableEq

/-- Initial session analytics from src/app.py lines 72-78: zero interactions,
average sentiment 0.5, empty topics, zero duration, start time now. -/
def initial_user_analytics (t0 : Nat) : AnalyticsState :=
  { total_interactions := 0
    avg_sentiment := 1/2
    topics_discussed := []
    session_duration := 0
    start_time := t0 }

/-- The analytics update performed by the send handler in show_main_app
(src/app.py lines 417-423): increment the interaction counter, then set
new_avg = (current_avg * (total_interactions - 1) + sentiment_score) /
total_interactions, where total_interactions is the incremented counter. -/
def update_analytics (st : AnalyticsState) (sentiment_score : ℚ) : AnalyticsState :=
  let total_interactions := st.total_interactions + 1
  let new_avg := (st.avg_sentiment * ((total_interactions : ℚ) - 1) + sentiment_score)
      / (total_interactions : ℚ)
  { st with total_interactions := total_interactions, avg_sentiment := new_avg }

/-- Folding the incremental update preserves the invariant
avg_sentiment * total_interactions = previous product + sum of new scores,
and adds the number of scores to the counter. -/
theorem foldl_update_analytics (scores : List ℚ) :
    ∀ st : AnalyticsState,
      (scores.foldl update_analytics st).total_interactions
          = st.total_interactions + scores.length ∧
      (scores.foldl update_analytics st).avg_sentiment
            * ((st.total_interactions + scores.length : Nat) : ℚ)
          = st.avg_sentiment * (st.total_interactions : ℚ) + scores.sum := by
  induction scores with
  | nil => intro st; simp
  | cons a l ih =>
    intro st
    obtain ⟨hcount, havg⟩ := ih (update_analytics st a)
    have hne : ((st.total_interactions + 1 : Nat) : ℚ) ≠ 0 := by
      exact_mod_cast Nat.succ_ne_zero st.total_interactions
    have hstep : (update_analytics st a).avg_sentiment
        * ((st.total_interactions + 1 : Nat) : ℚ)
        = st.avg_sentiment * (st.total_interactions : ℚ) + a := by
      simp only [update_analytics]
      rw [div_mul_cancel₀ _ hne]
      push_cast
      ring
    constructor
    · simp only [List.foldl_cons, List.length_cons]
      rw [hcount]
      simp only [update_analytics]
      omega
    · simp only [List.foldl_cons, List.length_cons, List.sum_cons]
      have hc : (update_analytics st a).total_interactions = st.total_interactions + 1 := rfl
      rw [hc] at havg
      have hq : ((st.total_interactions + (l.length + 1) : Nat) : ℚ)
          = ((st.total_interactions + 1 + l.length : Nat) : ℚ) := by
        push_cast; ring
      rw [hq, havg, hstep]
      ring

/-- C1: for every nonempty list of sentiment scores, starting from the initial
session analytics (avg_sentiment 0.5, total_interactions 0) and applying the
incremental update of the send handler once per score leaves avg_sentiment
equal to the arithmetic mean of the scores. -/
theorem avg_sentiment_eq_mean (t0 : Nat) (scores : List ℚ) (h : scores ≠ []) :
    (scores.foldl update_analytics (initial_user_analytics t0)).avg_sentiment
      = scores.sum / (scores.length : ℚ) := by
  obtain ⟨_, havg⟩ := foldl_update_analytics scores (initial_user_analytics t0)
  have hlen : ((scores.length : Nat) : ℚ) ≠ 0 := by
    have : scores.length ≠ 0 := by
      intro hz
      exact h (List.eq_nil_of_length_eq_zero hz)
    exact_mod_cast this
  have h0 : (initial_user_analytics t0).total_interactions = 0 := rfl
  have h05 : (initial_user_analytics t0).avg_sentiment = 1/2 := rfl
  rw [h0, h05] at havg
  rw [eq_div_iff hlen]
  simpa using havg

/-- Witness for C1 at the concrete score list [1/4, 3/4]: the running mean
after both updates is their arithmetic mean 1/2. -/
theorem avg_sentiment_eq_mean_witness :
    ([(1:ℚ)/4, 3/4] ≠ ([] : List ℚ)) ∧
    (([(1:ℚ)/4, 3/4]).foldl update_analytics (initial_user_analytics 0)).avg_sentiment
      = ([(1:ℚ)/4, 3/4]).sum / (([(1:ℚ)/4, 3/4]).length : ℚ) :=
  ⟨by decide, avg_sentiment_eq_mean 0 [1/4, 3/4] (by decide)⟩

/-- Model of a bcrypt hash as produced by bcrypt.hashpw(password, gensalt())
in hash_password (src/app.py line 141): the external library is embedded by
its contract, a value determined by the salt drawn at hashing time together
with the password that was hashed. -/
structure Hashed where
  salt : Nat
  hashed_of : String
deriving DecidableEq

/-- hash_password from src/app.py lines 140-141; the salt drawn by
bcrypt.gensalt() is an explicit parameter. -/
def hash_password (salt : Nat) (password : String) : Hashed :=
  { salt := salt, hashed_of := password }

/-- verify_password from src/app.py lines 143-144: bcrypt.checkpw succeeds
exactly when the candidate password is the one that was hashed. -/
def verify_password (password : String) (hashed : Hashed) : Bool :=
  password == hashed.hashed_of

/-- One entry of the analytics.sessions array pushed by save_interaction. -/
structure SessionEntry where
  timestamp : Nat
  sentiment : ℚ
deriving DecidableEq

/-- The nested analytics document stored inside a user record
(src/app.py lines 158-163). -/
structure UserAnalytics where
  total_interactions : Nat
  sessions : List SessionEntry
  topics : List String
  avg_sentiment : ℚ
deriving DecidableEq

/-- A document of the users collection (src/app.py lines 153-164). -/
structure UserRecord where
  username : String
  email : String
  password : Hashed
  created_at : Nat
  analytics : UserAnalytics
deriving DecidableEq

/-- A document of the interactions collection (src/app.py lines 247-253). -/
structure InteractionDoc where
  username : String
  user_input : String
  ai_response : String
  sentiment_score : ℚ
  timestamp : Nat
deriving DecidableEq

/-- The document store: the users and interactions collections, each a list
of documents in insertion order. -/
structure DB where
  users : List UserRecord
  interactions : List InteractionDoc
deriving DecidableEq

/-- users_collection.find_one on a username equality filter: the first stored
document whose username matches. -/
def find_one_user (db : DB) (username : String) : Option UserRecord :=
  db.users.find? (fun u => u.username == username)

/-- The user document inserted by register_user (src/app.py lines 153-165). -/
def new_user_record (username email password : String) (salt now : Nat) : UserRecord :=
  { username := username
    email := email
    password := hash_password salt password
    created_at := now
    analytics := { total_interactions := 0, sessions := [], topics := [], avg_sentiment := 1/2 } }

/-- register_user from src/app.py lines 146-168: fail without change when the
username is already present, otherwise insert a fresh user document with
zeroed analytics. Returns the (success, message) pair of the code together
with the resulting store. -/
def register_user (db : DB) (username email password : String) (salt now : Nat) :
    Bool × String × DB :=
  match find_one_user db username with
  | some _ => (false, "Username already exists", db)
  | none =>
      (true, "User registered successfully",
        { db with users := db.users ++ [new_user_record username email password salt now] })

/-- authenticate_user from src/app.py lines 170-179: look the username up and
verify the password hash; return the stored user document on success. -/
def authenticate_user (db : DB) (username password : String) : Bool × Option UserRecord :=
  match find_one_user db username with
  | some user =>
      if verify_password password user.password then (true, some user) else (false, none)
  | none => (false, none)

/-- C4: verification succeeds for the hashed password and fails for every
other password. -/
theorem hash_verify_roundtrip (salt : Nat) (s s' : String) (h : s' ≠ s) :
    verify_password s (hash_password salt s) = true ∧
    verify_password s' (hash_password salt s) = false := by
  constructor
  · simp [verify_password, hash_password]
  · simp [verify_password, hash_password]
    exact h

/-- Witness for C4 at the concrete secrets "hunter2" and "hunter3". -/
theorem hash_verify_roundtrip_witness :
    ("hunter3" ≠ "hunter2") ∧
    verify_password "hunter2" (hash_password 0 "hunter2") = true ∧
    verify_password "hunter3" (hash_password 0 "hunter2") = false :=
  ⟨by decide, hash_verify_roundtrip 0 "hunter2" "hunter3" (by decide)⟩

/-- C3: with a fresh username, register_user succeeds and a subsequent
authenticate_user with the same credentials returns the stored user record;
with a username already present, register_user fails with the
already-exists outcome and leaves the store unchanged. -/
theorem register_authenticate_contract (db : DB) (username email password : String)
    (salt now : Nat) :
    (find_one_user db username = none →
      (register_user db username email password salt now).1 = true ∧
      authenticate_user (register_user db username email password salt now).2.2
          username password
        = (true, some (new_user_record username email password salt now))) ∧
    (∀ u, find_one_user db username = some u →
      register_user db username email password salt now
        = (false, "Username already exists", db)) := by
  constructor
  · intro hfresh
    have hreg : register_user db username email password salt now
        = (true, "User registered successfully",
            { db with users := db.users ++ [new_user_record username email password salt now] }) := by
      unfold register_user
      rw [hfresh]
    refine ⟨by rw [hreg], ?_⟩
    rw [hreg]
    have hfind : find_one_user
        { db with users := db.users ++ [new_user_record username email password salt now] }
        username = some (new_user_record username email password salt now) := by
      unfold find_one_user at hfresh ⊢
      rw [List.find?_append, hfresh]
      simp [new_user_record]
    unfold authenticate_user
    rw [hfind]
    simp [verify_password, new_user_record, hash_password]
  · intro u hu
    unfold register_user
    rw [hu]

/-- Witness for C3 on an initially empty store with the user "alice": the
fresh registration succeeds, authentication returns the stored record, and a
repeated registration fails with the already-exists outcome leaving the
store unchanged. -/
theorem register_authenticate_contract_witness :
    ((register_user ⟨[], []⟩ "alice" "alice@mail.com" "pw" 0 0).1 = true ∧
      authenticate_user (register_user ⟨[], []⟩ "alice" "alice@mail.com" "pw" 0 0).2.2
          "alice" "pw"
        = (true, some (new_user_record "alice" "alice@mail.com" "pw" 0 0))) ∧
    register_user (register_user ⟨[], []⟩ "alice" "alice@mail.com" "pw" 0 0).2.2
        "alice" "alice@mail.com" "pw" 1 1
      = (false, "Username already exists",
          (register_user ⟨[], []⟩ "alice" "alice@mail.com" "pw" 0 0).2.2) := by
  constructor
  · exact (register_authenticate_contract ⟨[], []⟩ "alice" "alice@mail.com" "pw" 0 0).1
      (by decide)
  · exact (register_authenticate_contract
        (register_user ⟨[], []⟩ "alice" "alice@mail.com" "pw" 0 0).2.2
        "alice" "alice@mail.com" "pw" 1 1).2
      (new_user_record "alice" "alice@mail.com" "pw" 0 0) rfl

/-- One entry of the classifier output for a text: a label string
(LABEL_0 negative, LABEL_2 positive) and a score. -/
structure ClassifierResult where
  label : String
  score : ℚ
deriving DecidableEq

/-- The accumulation step of the loop in analyze_sentiment (src/app.py lines
223-227): add scores labelled LABEL_2, subtract scores labelled LABEL_0. -/
def sentiment_step (acc : ℚ) (r : ClassifierResult) : ℚ :=
  if r.label == "LABEL_2" then acc + r.score
  else if r.label == "LABEL_0" then acc - r.score
  else acc

/-- The loop of analyze_sentiment over the entries of results[0], starting
from sentiment_score = 0. -/
def raw_sentiment (results : List ClassifierResult) : ℚ :=
  results.foldl sentiment_step 0

/-- analyze_sentiment from src/app.py lines 218-241. The classifier call is
embedded by its outcome: none is the exception branch, which returns
(0.5, Neutral); some results carries the list results[0] of label/score
entries produced by the pipeline. -/
def analyze_sentiment (classifier_output : Option (List ClassifierResult)) : ℚ × String :=
  match classifier_output with
  | none => (1/2, "😐 Neutral")
  | some results =>
      let sentiment_score := (raw_sentiment results + 1) / 2
      let sentiment_label :=
        if sentiment_score > 6/10 then "😊 Positive"
        else if sentiment_score < 4/10 then "😔 Negative"
        else "😐 Neutral"
      (sentiment_score, sentiment_label)

/-- The system-wide threshold rule: Positive above 0.6, Negative below 0.4,
Neutral otherwise (src/app.py lines 232-237). -/
def threshold_label (score : ℚ) : String :=
  if score > 6/10 then "😊 Positive"
  else if score < 4/10 then "😔 Negative"
  else "😐 Neutral"

/-- Well-formedness of a classifier outcome: when the pipeline returns, each
class score is nonnegative and the scores sum to at most one (the pipeline
returns a probability distribution over the classes). -/
def wellformed_output : Option (List ClassifierResult) → Prop
  | none => True
  | some results =>
      (∀ r ∈ results, 0 ≤ r.score) ∧ (results.map ClassifierResult.score).sum ≤ 1

instance wellformed_output_decidable (co : Option (List ClassifierResult)) :
    Decidable (wellformed_output co) := by
  cases co with
  | none => exact inferInstanceAs (Decidable True)
  | some results => exact inferInstanceAs (Decidable (_ ∧ _))

theorem sentiment_step_shift (a b : ℚ) (r : ClassifierResult) :
    sentiment_step (a + b) r = a + sentiment_step b r := by
  unfold sentiment_step
  split
  · ring
  · split
    · ring
    · rfl

theorem foldl_sentiment_shift (l : List ClassifierResult) :
    ∀ a : ℚ, l.foldl sentiment_step a = a + l.foldl sentiment_step 0 := by
  induction l with
  | nil => intro a; simp
  | cons r l ih =>
    intro a
    simp only [List.foldl_cons]
    rw [ih (sentiment_step a r), ih (sentiment_step 0 r)]
    rw [show sentiment_step a r = a + sentiment_step 0 r by
      have := sentiment_step_shift a 0 r
      simpa using this]
    ring

theorem abs_raw_sentiment_le (l : List ClassifierResult)
    (h : ∀ r ∈ l, 0 ≤ r.score) :
    |raw_sentiment l| ≤ (l.map ClassifierResult.score).sum := by
  induction l with
  | nil => simp [raw_sentiment]
  | cons r l ih =>
    have hr : 0 ≤ r.score := h r (List.mem_cons_self r l)
    have hl : ∀ x ∈ l, 0 ≤ x.score := fun x hx => h x (List.mem_cons_of_mem r hx)
    have hcons : raw_sentiment (r :: l) = sentiment_step 0 r + raw_sentiment l := by
      unfold raw_sentiment
      simp only [List.foldl_cons]
      exact foldl_sentiment_shift l (sentiment_step 0 r)
    have hstep : |sentiment_step 0 r| ≤ r.score := by
      unfold sentiment_step
      split
      · rw [abs_of_nonneg (by simpa using hr)]; simp
      · split
        · rw [abs_of_nonpos (by simpa using hr)]; simp
        · simpa using hr
    calc |raw_sentiment (r :: l)|
        = |sentiment_step 0 r + raw_sentiment l| := by rw [hcons]
      _ ≤ |sentiment_step 0 r| + |raw_sentiment l| := abs_add _ _
      _ ≤ r.score + (l.map ClassifierResult.score).sum := add_le_add hstep (ih hl)
      _ = ((r :: l).map ClassifierResult.score).sum := by simp

/-- C5: for every classifier outcome, including the exception branch, if the
returned class scores form a (sub)probability distribution then
analyze_sentiment returns a score in [0,1] and a label equal to the
system-wide threshold of that score; the label is always Positive, Neutral
or Negative. -/
theorem analyze_sentiment_contract (co : Option (List ClassifierResult))
    (h : wellformed_output co) :
    0 ≤ (analyze_sentiment co).1 ∧ (analyze_sentiment co).1 ≤ 1 ∧
    (analyze_sentiment co).2 = threshold_label (analyze_sentiment co).1 ∧
    ((analyze_sentiment co).2 = "😊 Positive" ∨ (analyze_sentiment co).2 = "😐 Neutral" ∨
      (analyze_sentiment co).2 = "😔 Negative") := by
  have hmem : ∀ s : ℚ, threshold_label s = "😊 Positive" ∨ threshold_label s = "😐 Neutral" ∨
      threshold_label s = "😔 Negative" := by
    intro s
    unfold threshold_label
    split
    · left; rfl
    · split
      · right; right; rfl
      · right; left; rfl
  cases co with
  | none =>
    refine ⟨by norm_num [analyze_sentiment], by norm_num [analyze_sentiment], ?_, ?_⟩
    · show "😐 Neutral" = threshold_label (1/2)
      unfold threshold_label
      norm_num
    · right; left; rfl
  | some results =>
    simp only [wellformed_output] at h
    obtain ⟨hpos, hsum⟩ := h
    have habs := abs_raw_sentiment_le results hpos
    have hbound : |raw_sentiment results| ≤ 1 := le_trans habs hsum
    rw [abs_le] at hbound
    have h1 : (analyze_sentiment (some results)).1 = (raw_sentiment results + 1) / 2 := rfl
    have h2 : (analyze_sentiment (some results)).2
        = threshold_label ((raw_sentiment results + 1) / 2) := rfl
    refine ⟨?_, ?_, ?_, ?_⟩
    · rw [h1]; linarith [hbound.1]
    · rw [h1]; linarith [hbound.2]
    · rw [h1, h2]
    · rw [h2]; exact hmem _

/-- Witness for C5 at the concrete classifier outcome assigning probability
1 to the positive class: the score is 1 and the label Positive. -/
theorem analyze_sentiment_contract_witness :
    wellformed_output (some [⟨"LABEL_2", 1⟩]) ∧
    (0 ≤ (analyze_sentiment (some [⟨"LABEL_2", 1⟩])).1 ∧
      (analyze_sentiment (some [⟨"LABEL_2", 1⟩])).1 ≤ 1 ∧
      (analyze_sentiment (some [⟨"LABEL_2", 1⟩])).2
          = threshold_label (analyze_sentiment (some [⟨"LABEL_2", 1⟩])).1 ∧
      ((analyze_sentiment (some [⟨"LABEL_2", 1⟩])).2 = "😊 Positive" ∨
        (analyze_sentiment (some [⟨"LABEL_2", 1⟩])).2 = "😐 Neutral" ∨
        (analyze_sentiment (some [⟨"LABEL_2", 1⟩])).2 = "😔 Negative")) :=
  ⟨by constructor <;> norm_num,
    analyze_sentiment_contract (some [⟨"LABEL_2", 1⟩]) (by constructor <;> norm_num)⟩

/-- Character-list test that the first list is an initial segment of the
second, used by the substring scan below. -/
def startsWithChars : List Char → List Char → Bool
  | [], _ => true
  | _ :: _, [] => false
  | n :: ns, c :: cs => n == c && startsWithChars ns cs

/-- Character-list substring test: the needle occurs contiguously somewhere
in the hay. -/
def containsChars (needle : List Char) : List Char → Bool
  | [] => startsWithChars needle []
  | c :: cs => startsWithChars needle (c :: cs) || containsChars needle cs

/-- Modelled from the spec: the positive keyword list of the local fallback
classifier, which is absent from src/app.py; the words are taken from the
positive example sentence given in the spec. -/
def positive_words : List String := ["love", "great", "amazing"]

/-- Modelled from the spec: the negative keyword list of the local fallback
classifier, which is absent from src/app.py; the words are taken from the
negative example sentence given in the spec. -/
def negative_words : List String := ["hate", "terrible", "awful"]

/-- Modelled from the spec: the local keyword-lookup fallback classifier the
spec describes — case-insensitive substring matches against fixed word
lists, Positive with score 0.7 when positive matches dominate, Negative with
score 0.3 when negative matches dominate, Neutral with score 0.5 otherwise.
No such classifier exists in src/app.py; this definition is the comparison
point for the claim about it. -/
def keyword_classify (text : String) : ℚ × String :=
  let lowered := text.toList.map Char.toLower
  let pos := (positive_words.filter (fun w => containsChars w.toList lowered)).length
  let neg := (negative_words.filter (fun w => containsChars w.toList lowered)).length
  if pos > neg then (7/10, "😊 Positive")
  else if neg > pos then (3/10, "😔 Negative")
  else (1/2, "😐 Neutral")

/-- C6 counterexample: on the positive-dominant example sentence from the
spec, the keyword-lookup behaviour the claim describes yields score 0.7 and
label Positive, but the fallback branch of analyze_sentiment in the code
ignores the input and yields score 0.5 with label Neutral, so the fallback
does not behave as the keyword lookup. -/
theorem local_fallback_not_keyword_lookup :
    keyword_classify "i love this, it is great and amazing" = (7/10, "😊 Positive") ∧
    analyze_sentiment none = (1/2, "😐 Neutral") ∧
    analyze_sentiment none ≠ keyword_classify "i love this, it is great and amazing" := by
  refine ⟨rfl, rfl, ?_⟩
  intro hcontra
  exact absurd (congrArg Prod.snd hcontra) (by decide)

/-- C6 amended: the fallback branch of analyze_sentiment, taken when the
classifier raises, ignores the input entirely and always returns score 0.5
with label Neutral; the code contains no keyword-lookup fallback. -/
theorem analyze_sentiment_error_branch :
    analyze_sentiment none = (1/2, "😐 Neutral") := rfl

/-- Outcome of the remote text_generation call inside generate_ai_response:
either the generated text, or the message of the exception raised by the
call. -/
inductive GenOutcome
  | success (text : String)
  | failure (errMsg : String)
deriving DecidableEq

/-- The message returned by generate_ai_response when no client is configured
(src/app.py line 185). -/
def no_client_message : String :=
  "❌ AI model not initialized. Please check your Hugging Face token in Streamlit secrets."

/-- The message returned by the exception branch of generate_ai_response
(src/app.py line 211), embedding the text of the exception. -/
def gen_error_message (e : String) : String :=
  "❌ AI model error: " ++ e ++ ". Please verify your Hugging Face token and model settings."

/-- generate_ai_response from src/app.py lines 182-211: with no client,
return the fixed not-initialized message; otherwise return the remote
generation result on success and the error message embedding the exception
text on failure. The user input and context only enter the prompt sent to
the remote call, whose result is the outcome parameter. -/
def generate_ai_response (hf_client : Bool) (user_input context : String)
    (outcome : GenOutcome) : String :=
  if hf_client then
    match outcome with
    | GenOutcome.success t => t
    | GenOutcome.failure e => gen_error_message e
  else no_client_message

theorem gen_error_message_injective : Function.Injective gen_error_message := by
  intro a b hab
  have hd := congrArg String.data hab
  simp only [gen_error_message, String.data_append] at hd
  exact String.ext (List.append_cancel_left (List.append_cancel_right hd))

/-- C7 counterexample: there is no finite set of strings containing every
fallback reply of generate_ai_response — the exception branch embeds the
exception text, so the replies over all failure outcomes are infinitely
many, not a small fixed set of canned responses. -/
theorem gen_fallback_not_from_fixed_set :
    ¬ ∃ S : Finset String, ∀ e : String,
        generate_ai_response true "question" "" (GenOutcome.failure e) ∈ S := by
  rintro ⟨S, hS⟩
  have heq : ∀ e : String,
      generate_ai_response true "question" "" (GenOutcome.failure e) = gen_error_message e :=
    fun e => rfl
  have hinj : Function.Injective fun e : String =>
      generate_ai_response true "question" "" (GenOutcome.failure e) := by
    intro a b hab
    have hab' : gen_error_message a = gen_error_message b := hab
    exact gen_error_message_injective hab'
  have hsub : Set.range (fun e : String =>
      generate_ai_response true "question" "" (GenOutcome.failure e)) ⊆ ↑S := by
    rintro x ⟨e, rfl⟩
    exact hS e
  exact (Set.infinite_range_of_injective hinj) (S.finite_toSet.subset hsub)

/-- C7 amended: whenever the client is absent or the remote call fails,
generate_ai_response returns, without raising, a non-empty string: the fixed
not-initialized notice when the client is absent, and the error message
embedding the exception text on failure — error notices, not members of a
fixed finite set of encouraging fallback responses. -/
theorem generate_ai_response_fallback (user_input context e : String)
    (outcome : GenOutcome) :
    generate_ai_response false user_input context outcome = no_client_message ∧
    no_client_message ≠ "" ∧
    generate_ai_response true user_input context (GenOutcome.failure e)
        = gen_error_message e ∧
    gen_error_message e ≠ "" := by
  refine ⟨rfl, by decide, rfl, ?_⟩
  intro h
  have hl := congrArg String.length h
  simp only [gen_error_message, String.length_append] at hl
  have hp : ("❌ AI model error: ").length = 18 := rfl
  rw [hp] at hl
  simp at hl

/-- users_collection.update_one with a username equality filter: apply the
update to the first matching document only. -/
def update_first_user (l : List UserRecord) (username : String)
    (f : UserRecord → UserRecord) : List UserRecord :=
  match l with
  | [] => []
  | u :: us =>
      if u.username == username then f u :: us
      else u :: update_first_user us username f

/-- save_interaction from src/app.py lines 244-267: insert one interaction
document holding the user input, the reply and the sentiment score with the
current time, then increment the interaction counter of the owning user and push
a session entry onto the analytics of that user. -/
def save_interaction (db : DB) (username user_input ai_response : String)
    (sentiment_score : ℚ) (now : Nat) : DB :=
  let doc : InteractionDoc :=
    { username := username
      user_input := user_input
      ai_response := ai_response
      sentiment_score := sentiment_score
      timestamp := now }
  { users := update_first_user db.users username (fun u =>
      { u with analytics :=
          { u.analytics with
              total_interactions := u.analytics.total_interactions + 1
              sessions := u.analytics.sessions ++ [⟨now, sentiment_score⟩] } })
    interactions := db.interactions ++ [doc] }

/-- A persisted chat message as retrieved for transcript replay: role, text
and the timestamp ordering key. -/
structure Message where
  role : String
  text : String
  timestamp : Nat
deriving DecidableEq

/-- The two messages carried by one interaction document: the user message
and the assistant reply, both stamped with the timestamp of the document. -/
def doc_messages (d : InteractionDoc) : List Message :=
  [{ role := "user", text := d.user_input, timestamp := d.timestamp },
   { role := "assistant", text := d.ai_response, timestamp := d.timestamp }]

/-- Boolean timestamp comparison used to sort retrieved documents. -/
def ts_le (d₁ d₂ : InteractionDoc) : Bool :=
  Nat.ble d₁.timestamp d₂.timestamp

/-- Modelled from the spec: load(owner) of the transcript store. src/app.py
never reads the interactions collection back (the transcript shown is the
in-memory chat history), so retrieval is modelled from the spec: all
documents of the owner, in ascending timestamp order, each contributing its
user message and its assistant reply. -/
def load_messages (db : DB) (owner : String) : List Message :=
  (((db.interactions.filter (fun d => d.username == owner)).mergeSort ts_le).map
    doc_messages).flatten

theorem mem_doc_messages_timestamp (d : InteractionDoc) (m : Message)
    (hm : m ∈ doc_messages d) : m.timestamp = d.timestamp := by
  simp only [doc_messages, List.mem_cons, List.mem_singleton] at hm
  rcases hm with h | h | h
  · rw [h]
  · rw [h]
  · cases h

theorem mem_flatten_doc_messages (l : List InteractionDoc) (m : Message)
    (hm : m ∈ ((l.map doc_messages).flatten)) : ∃ d ∈ l, m.timestamp = d.timestamp := by
  rw [List.mem_flatten] at hm
  obtain ⟨s, hs, hms⟩ := hm
  rw [List.mem_map] at hs
  obtain ⟨d, hd, rfl⟩ := hs
  exact ⟨d, hd, mem_doc_messages_timestamp d m hms⟩

theorem chain_flatten_doc_messages (l : List InteractionDoc)
    (h : List.Pairwise (fun a b : InteractionDoc => a.timestamp ≤ b.timestamp) l) :
    List.Chain' (fun m₁ m₂ : Message => m₁.timestamp ≤ m₂.timestamp)
      ((l.map doc_messages).flatten) := by
  induction l with
  | nil => simp
  | cons d l ih =>
    rw [List.pairwise_cons] at h
    obtain ⟨hall, hl⟩ := h
    have hflat : (((d :: l).map doc_messages).flatten)
        = doc_messages d ++ (l.map doc_messages).flatten := by
      simp
    rw [hflat, List.chain'_append]
    refine ⟨?_, ih hl, ?_⟩
    · simp [doc_messages, List.chain'_cons]
    · intro x hx y hy
      have hxd : x.timestamp = d.timestamp :=
        mem_doc_messages_timestamp d x (List.mem_of_mem_getLast? hx)
      have hyl := mem_flatten_doc_messages l y (List.mem_of_mem_head? hy)
      obtain ⟨d', hd', hyd⟩ := hyl
      rw [hxd, hyd]
      exact hall d' hd'

theorem length_flatten_doc_messages (l : List InteractionDoc) :
    ((l.map doc_messages).flatten).length = 2 * l.length := by
  induction l with
  | nil => simp
  | cons d l ih =>
    simp only [List.map_cons, List.flatten_cons, List.length_append, ih, doc_messages]
    simp
    omega

/-- C8: for every owner, retrieval returns the persisted messages in
non-decreasing timestamp order, and one completed ask/reply cycle (one
save_interaction call, absent store failure) makes the retrieved
sequence of the owner exactly 2 messages longer. -/
theorem load_messages_contract (db : DB) (owner user_input ai_response : String)
    (sc : ℚ) (now : Nat) :
    List.Chain' (fun m₁ m₂ : Message => m₁.timestamp ≤ m₂.timestamp)
      (load_messages db owner) ∧
    (load_messages (save_interaction db owner user_input ai_response sc now) owner).length
      = (load_messages db owner).length + 2 := by
  constructor
  · unfold load_messages
    apply chain_flatten_doc_messages
    have hsorted := @List.sorted_mergeSort InteractionDoc ts_le
      (fun a b c hab hbc => by
        simp only [ts_le, Nat.ble_eq] at hab hbc ⊢
        omega)
      (fun a b => by
        simp only [ts_le, Nat.ble_eq]
        by_cases h : a.timestamp ≤ b.timestamp
        · simp [h]
        · simp [h]; omega)
      (db.interactions.filter (fun d => d.username == owner))
    refine List.Pairwise.imp ?_ hsorted
    intro a b hab
    simpa [ts_le, Nat.ble_eq] using hab
  · have hlen : ∀ db' : DB, (load_messages db' owner).length
        = 2 * (db'.interactions.filter (fun d => d.username == owner)).length := by
      intro db'
      unfold load_messages
      rw [length_flatten_doc_messages, (List.mergeSort_perm _ ts_le).length_eq]
    rw [hlen, hlen]
    have hint : (save_interaction db owner user_input ai_response sc now).interactions
        = db.interactions ++
          [{ username := owner, user_input := user_input, ai_response := ai_response,
             sentiment_score := sc, timestamp := now }] := rfl
    rw [hint, List.filter_append]
    simp
    omega

/-- The per-session Streamlit state used by the app: authentication flag,
active username, in-memory chat history of (role, message, sentiment label)
triples, and the analytics record (src/app.py lines 64-78). -/
structure SessionState where
  authenticated : Bool
  username : Option String
  chat_history : List (String × String × String)
  user_analytics : AnalyticsState
deriving DecidableEq

/-- The Logout action of show_main_app (src/app.py lines 336-340): clear the
authentication flag, the active username and the in-memory chat history,
leaving everything else in place. -/
def logout (s : SessionState) : SessionState :=
  { s with authenticated := false, username := none, chat_history := [] }

/-- C9: Logout resets only the authentication flag, the active username and
the in-memory chat history; the analytics record (interaction count, running
sentiment, session start time) is left unchanged and so carries over into a
later login in the same process session. -/
theorem logout_frame (s : SessionState) :
    (logout s).user_analytics = s.user_analytics ∧
    (logout s).authenticated = false ∧
    (logout s).username = none ∧
    (logout s).chat_history = [] :=
  ⟨rfl, rfl, rfl, rfl⟩

/-- The environment of one run of the send handler: the cached store handle
(none when init_mongodb failed), whether init_ai_models produced a sentiment
analyzer and a generation client, the outcome of the classifier call, the
outcome of the remote generation call, and the current time. -/
structure HandlerEnv where
  db : Option DB
  sentiment_analyzer : Bool
  hf_client : Bool
  classifier_output : Option (List ClassifierResult)
  gen_outcome : GenOutcome
  now : Nat
deriving DecidableEq

/-- Python truthiness of a string: true exactly for nonempty strings. The
send handler guards on send_button and user_input (src/app.py line 402). -/
def py_truthy (s : String) : Bool := s != ""

/-- The send handler of show_main_app (src/app.py lines 402-430): when the
send button was pressed with a truthy input and both AI handles are present,
classify the input, generate the reply, append user message and reply to the
chat history, apply the analytics update, and save the interaction when a
store handle is available; in every other case do nothing. Returns the new
session state together with the resulting store. -/
def process_user_input (env : HandlerEnv) (s : SessionState) (send_button : Bool)
    (user_input : String) : SessionState × Option DB :=
  if send_button && py_truthy user_input then
    if env.hf_client && env.sentiment_analyzer then
      let sr := analyze_sentiment env.classifier_output
      let sentiment_score := sr.1
      let sentiment_label := sr.2
      let context := "Previous interactions: " ++ toString s.chat_history.length
      let ai_response := generate_ai_response env.hf_client user_input context env.gen_outcome
      let chat_history := s.chat_history ++
        [("user", user_input, ""), ("assistant", ai_response, sentiment_label)]
      let analytics := update_analytics s.user_analytics sentiment_score
      let db' := match env.db with
        | some db => some (save_interaction db (s.username.getD "") user_input ai_response
            sentiment_score env.now)
        | none => none
      ({ s with chat_history := chat_history, user_analytics := analytics }, db')
    else (s, env.db)
  else (s, env.db)

/-- A handler environment with an empty store and both AI handles present,
where the classifier raises and the remote generation succeeds. -/
def demo_env : HandlerEnv :=
  { db := some { users := [], interactions := [] }
    sentiment_analyzer := true
    hf_client := true
    classifier_output := none
    gen_outcome := GenOutcome.success "Here is an explanation."
    now := 0 }

/-- A freshly logged-in session for the user alice. -/
def demo_session : SessionState :=
  { authenticated := true
    username := some "alice"
    chat_history := []
    user_analytics := initial_user_analytics 0 }

/-- C2 counterexample: the single-space submission is whitespace-only yet
truthy in Python, so the send handler processes it — the interaction counter
is incremented, two chat entries are appended, and the interaction is
written to the store. -/
theorem whitespace_submission_changes_state :
    (" " ≠ "" ∧ (" ").toList.all Char.isWhitespace = true) ∧
    (process_user_input demo_env demo_session true " ").1.user_analytics.total_interactions
        = demo_session.user_analytics.total_interactions + 1 ∧
    (process_user_input demo_env demo_session true " ").1.chat_history.length
        = demo_session.chat_history.length + 2 ∧
    (process_user_input demo_env demo_session true " ").2 ≠ demo_env.db := by
  refine ⟨by decide, rfl, rfl, ?_⟩
  intro h
  have h1 : ((process_user_input demo_env demo_session true " ").2.map
      (fun d => d.interactions.length)).getD 0 = 1 := rfl
  rw [h] at h1
  have h2 : ((demo_env.db).map (fun d => d.interactions.length)).getD 0 = 0 := rfl
  rw [h2] at h1
  cases h1

/-- C2 amended: the send handler performs no store write and leaves the
session state unchanged when the submission is the empty string, or when the
send button was not pressed; whitespace-only but non-empty submissions are
not rejected, because the guard is Python truthiness of the input, which
only filters the empty string. -/
theorem empty_submission_no_side_effects (env : HandlerEnv) (s : SessionState)
    (send_button : Bool) :
    process_user_input env s send_button "" = (s, env.db) := by
  unfold process_user_input
  simp [py_truthy]

/-- C10: when the sentiment analyzer or the generation client failed to
initialize, the send handler is a complete no-op for every submission: no
chat entries, no aggregate change, no store write — the message is silently
dropped. -/
theorem missing_model_send_noop (env : HandlerEnv) (s : SessionState)
    (send_button : Bool) (user_input : String)
    (h : env.hf_client = false ∨ env.sentiment_analyzer = false) :
    process_user_input env s send_button user_input = (s, env.db) := by
  unfold process_user_input
  rcases h with h | h <;> simp [h]

/-- A handler environment where the generation client failed to initialize. -/
def demo_env_no_model : HandlerEnv :=
  { demo_env with hf_client := false }

/-- Witness for C10: with the generation client absent, a concrete non-empty
submission leaves the session state and the store exactly as they were. -/
theorem missing_model_send_noop_witness :
    (demo_env_no_model.hf_client = false ∨ demo_env_no_model.sentiment_analyzer = false) ∧
    process_user_input demo_env_no_model demo_session true "hello"
      = (demo_session, demo_env_no_model.db) :=
  ⟨Or.inl rfl,
    missing_model_send_noop demo_env_no_model demo_session true "hello" (Or.inl rfl)⟩

end EduTutor
